import Mathlib

/-!
Shallow embedding of the diagnostic-trigger subsystem of the repository
(drivers/oneplus/misc/oem_force_dump.c and drivers/block/vbswap/vbswap_helper.c).

The C code is translated definition by definition:
machine integers become `Nat`/`Int`, C truthiness tests (`value`, `!value`)
become `value != 0` / `value == 0`, the static recognizer state and the
static globals `selinux_switch` / `message_state` become an explicit
`OemState` record threaded through the transition function, and side
effects (panic, queue_work) are recorded in the step output.
-/

/-- Linux input key code for the power key (input-event-codes.h). -/
def KEY_POWER : Nat := 116

/-- Linux input key code for the volume-up key. -/
def KEY_VOLUMEUP : Nat := 115

/-- Linux input key code for the volume-down key. -/
def KEY_VOLUMEDOWN : Nat := 114

/-- The thirteen states of the static `state` variable of
`oem_check_force_dump_key`: `NONE, STEP1, ..., STEP11, STEP_DEBUG1`. -/
inductive ComboState where
  | NONE
  | STEP1
  | STEP2
  | STEP3
  | STEP4
  | STEP5
  | STEP6
  | STEP7
  | STEP8
  | STEP9
  | STEP10
  | STEP11
  | STEP_DEBUG1
deriving DecidableEq, Repr

/-- The mutable globals of oem_force_dump.c that the recognizer touches:
the recognizer state, `selinux_switch` (initially 0) and `message_state`
(initially -1, the single-slot mailbox shared with the worker). -/
structure OemState where
  combo : ComboState
  selinux_switch : Int
  message_state : Int
deriving DecidableEq, Repr

/-- Initial values of the globals: `state = NONE`, `selinux_switch = 0`
(zero-initialised static), `message_state = -1`. -/
def initOem : OemState := ⟨ComboState.NONE, 0, -1⟩

/-- Observable side effect of one recognizer step: `ForceDump` records the
`panic("Force Dump")` call, `Queued` records a `queue_work(smg_workwq, &smg_work)`
call (the enqueued kind is the `message_state` value written by the same step). -/
inductive OemAction where
  | ForceDump
  | Queued
deriving DecidableEq, Repr

/-- Result of one call to the recognizer: the new global state and the
side effect (if any) the call performed. -/
structure StepOut where
  s : OemState
  act : Option OemAction
deriving DecidableEq, Repr

/-- Translation of `oem_check_force_dump_key(code, value)`. The external
`oem_get_download_mode()` flag is passed in as `download`. Each `case` of the
C switch is one arm of the match; C truthiness `value` / `!value` is
`value != 0` / `value == 0`. In the `STEP11` branch the C code calls
`panic("Force Dump")` when download mode is on and leaves `state` untouched
in both download cases; in the `STEP_DEBUG1` branch it writes
`selinux_switch`/`message_state` and queues the worker. -/
def oem_check_force_dump_key (download : Bool) (st : OemState)
    (code : Nat) (value : Int) : StepOut :=
  match st.combo with
  | ComboState.NONE =>
      if code == KEY_VOLUMEUP && value != 0 then ⟨{ st with combo := ComboState.STEP1 }, none⟩
      else ⟨{ st with combo := ComboState.NONE }, none⟩
  | ComboState.STEP1 =>
      if code == KEY_VOLUMEUP && value == 0 then ⟨{ st with combo := ComboState.STEP2 }, none⟩
      else ⟨{ st with combo := ComboState.NONE }, none⟩
  | ComboState.STEP2 =>
      if code == KEY_VOLUMEDOWN && value != 0 then ⟨{ st with combo := ComboState.STEP3 }, none⟩
      else ⟨{ st with combo := ComboState.NONE }, none⟩
  | ComboState.STEP3 =>
      if code == KEY_VOLUMEDOWN && value == 0 then ⟨{ st with combo := ComboState.STEP4 }, none⟩
      else ⟨{ st with combo := ComboState.NONE }, none⟩
  | ComboState.STEP4 =>
      if code == KEY_VOLUMEUP && value != 0 then ⟨{ st with combo := ComboState.STEP5 }, none⟩
      else ⟨{ st with combo := ComboState.NONE }, none⟩
  | ComboState.STEP5 =>
      if code == KEY_POWER && value != 0 then ⟨{ st with combo := ComboState.STEP6 }, none⟩
      else ⟨{ st with combo := ComboState.NONE }, none⟩
  | ComboState.STEP6 =>
      if code == KEY_POWER && value == 0 then ⟨{ st with combo := ComboState.STEP7 }, none⟩
      else ⟨{ st with combo := ComboState.NONE }, none⟩
  | ComboState.STEP7 =>
      if code == KEY_POWER && value != 0 then ⟨{ st with combo := ComboState.STEP8 }, none⟩
      else ⟨{ st with combo := ComboState.NONE }, none⟩
  | ComboState.STEP8 =>
      if code == KEY_POWER && value == 0 then ⟨{ st with combo := ComboState.STEP9 }, none⟩
      else ⟨{ st with combo := ComboState.NONE }, none⟩
  | ComboState.STEP9 =>
      if code == KEY_VOLUMEUP && value == 0 then ⟨{ st with combo := ComboState.STEP10 }, none⟩
      else ⟨{ st with combo := ComboState.NONE }, none⟩
  | ComboState.STEP10 =>
      if code == KEY_VOLUMEUP && value != 0 then ⟨{ st with combo := ComboState.STEP11 }, none⟩
      else if code == KEY_VOLUMEDOWN && value != 0 then
        ⟨{ st with combo := ComboState.STEP_DEBUG1 }, none⟩
      else ⟨{ st with combo := ComboState.NONE }, none⟩
  | ComboState.STEP11 =>
      if code == KEY_POWER && value != 0 then
        if download then ⟨st, some OemAction.ForceDump⟩
        else ⟨st, none⟩
      else ⟨{ st with combo := ComboState.NONE }, none⟩
  | ComboState.STEP_DEBUG1 =>
      if code == KEY_POWER && value != 0 then
        ⟨{ combo := ComboState.NONE, selinux_switch := 1, message_state := 1 },
          some OemAction.Queued⟩
      else if code == KEY_VOLUMEDOWN && value == 0 then
        ⟨{ st with combo := ComboState.NONE, message_state := 2 }, some OemAction.Queued⟩
      else ⟨{ st with combo := ComboState.NONE }, none⟩

/-- Feed a list of `(code, value)` events through the recognizer, returning
the final global state and the per-event side-effect log. -/
def runCombo (download : Bool) : OemState → List (Nat × Int) → OemState × List (Option OemAction)
  | st, [] => (st, [])
  | st, (c, v) :: rest =>
      let r := oem_check_force_dump_key download st c v
      let rest2 := runCombo download r.s rest
      (rest2.1, r.act :: rest2.2)

/-- The 11-event primary sequence (steps NONE → STEP1 → ... → STEP11):
volup-down, volup-up, voldown-down, voldown-up, volup-down, power-down,
power-up, power-down, power-up, volup-up, volup-down. -/
def primaryEvents : List (Nat × Int) :=
  [(KEY_VOLUMEUP, 1), (KEY_VOLUMEUP, 0), (KEY_VOLUMEDOWN, 1), (KEY_VOLUMEDOWN, 0),
   (KEY_VOLUMEUP, 1), (KEY_POWER, 1), (KEY_POWER, 0), (KEY_POWER, 1), (KEY_POWER, 0),
   (KEY_VOLUMEUP, 0), (KEY_VOLUMEUP, 1)]

/-- The primary sequence followed by the final power-down. -/
def primaryFull : List (Nat × Int) := primaryEvents ++ [(KEY_POWER, 1)]

/-- Debug sub-path ending in power-down: first ten primary events
(reaching STEP10), then voldown-down (STEP_DEBUG1), then power-down. -/
def debugPathPwr : List (Nat × Int) :=
  primaryEvents.take 10 ++ [(KEY_VOLUMEDOWN, 1), (KEY_POWER, 1)]

/-- Debug sub-path ending in voldown-up: first ten primary events
(reaching STEP10), then voldown-down (STEP_DEBUG1), then voldown-up. -/
def debugPathVol : List (Nat × Int) :=
  primaryEvents.take 10 ++ [(KEY_VOLUMEDOWN, 1), (KEY_VOLUMEDOWN, 0)]

/-- C1: starting from the initial state with download mode on, the 11-event
primary sequence followed by the final power-down produces no side effect at
any of the first 11 events and exactly one `ForceDump` (the
`panic("Force Dump")`) at the final event. -/
theorem primary_sequence_force_dump :
    (runCombo true initOem primaryFull).2
      = List.replicate 11 none ++ [some OemAction.ForceDump] := by
  decide

/-- C2 counterexample: with download mode off, the same full sequence produces
no side effect anywhere, but the recognizer does NOT return to `NONE` (IDLE):
the `STEP11` arm of the C switch leaves `state` unassigned when
`code == KEY_POWER && value` holds and download mode is off, so the machine
stays in `STEP11`, refuting the claim that the state returns to IDLE. -/
theorem primary_no_download_counterexample :
    (runCombo false initOem primaryFull).1 = ⟨ComboState.STEP11, 0, -1⟩ ∧
    (runCombo false initOem primaryFull).2 = List.replicate 12 none ∧
    ComboState.STEP11 ≠ ComboState.NONE := by
  decide

/-- C2 amended: with download mode off the full sequence yields no side effect
at any step (in particular `none` at the final power-down), and the recognizer
remains in `STEP11` (not IDLE); from there a further power-down again queries
the download-mode flag: it is still a no-op when the flag is off and panics
when the flag is on. Repeating the full sequence from `STEP11` is not
idempotent: the second pass ends in `NONE`, not `STEP11`. -/
theorem primary_no_download_stays_step11 :
    (runCombo false initOem primaryFull).2 = List.replicate 12 none ∧
    (runCombo false initOem primaryFull).1 = ⟨ComboState.STEP11, 0, -1⟩ ∧
    oem_check_force_dump_key false ⟨ComboState.STEP11, 0, -1⟩ KEY_POWER 1
      = ⟨⟨ComboState.STEP11, 0, -1⟩, none⟩ ∧
    (oem_check_force_dump_key true ⟨ComboState.STEP11, 0, -1⟩ KEY_POWER 1).act
      = some OemAction.ForceDump ∧
    (runCombo false ⟨ComboState.STEP11, 0, -1⟩ primaryFull).1.combo = ComboState.NONE := by
  decide

/-- Model of the spec's transition table: `specExpectedNext s code value` holds
exactly when `(code, value)` is the expected next step of a defined path
(primary or debug) from state `s`. Written from the spec's description of the
paths, independently of `oem_check_force_dump_key`, to compare the code's
reset behaviour against it. -/
def specExpectedNext : ComboState → Nat → Int → Bool
  | ComboState.NONE, c, v => c == KEY_VOLUMEUP && v != 0
  | ComboState.STEP1, c, v => c == KEY_VOLUMEUP && v == 0
  | ComboState.STEP2, c, v => c == KEY_VOLUMEDOWN && v != 0
  | ComboState.STEP3, c, v => c == KEY_VOLUMEDOWN && v == 0
  | ComboState.STEP4, c, v => c == KEY_VOLUMEUP && v != 0
  | ComboState.STEP5, c, v => c == KEY_POWER && v != 0
  | ComboState.STEP6, c, v => c == KEY_POWER && v == 0
  | ComboState.STEP7, c, v => c == KEY_POWER && v != 0
  | ComboState.STEP8, c, v => c == KEY_POWER && v == 0
  | ComboState.STEP9, c, v => c == KEY_VOLUMEUP && v == 0
  | ComboState.STEP10, c, v => (c == KEY_VOLUMEUP && v != 0) || (c == KEY_VOLUMEDOWN && v != 0)
  | ComboState.STEP11, c, v => c == KEY_POWER && v != 0
  | ComboState.STEP_DEBUG1, c, v => (c == KEY_POWER && v != 0) || (c == KEY_VOLUMEDOWN && v == 0)

/-- One recognizer step on a mismatched event resets to `NONE`, leaves the
other globals alone and performs no side effect. -/
theorem step_mismatch_resets (download : Bool) (sel ms : Int) (cs : ComboState)
    (code : Nat) (value : Int) (h : specExpectedNext cs code value = false) :
    oem_check_force_dump_key download ⟨cs, sel, ms⟩ code value
      = ⟨⟨ComboState.NONE, sel, ms⟩, none⟩ := by
  cases cs <;> simp_all [oem_check_force_dump_key, specExpectedNext] <;>
    (split_ifs <;> tauto)

/-- Running a concatenation of event lists is running the second list from the
state the first one reaches, with the logs concatenated. -/
theorem runCombo_append (download : Bool) (s : OemState) (l1 l2 : List (Nat × Int)) :
    runCombo download s (l1 ++ l2)
      = ((runCombo download (runCombo download s l1).1 l2).1,
         (runCombo download s l1).2 ++ (runCombo download (runCombo download s l1).1 l2).2) := by
  induction l1 generalizing s with
  | nil => simp [runCombo]
  | cons e rest ih =>
      cases e with
      | mk c v => simp [runCombo, ih]

/-- The three defined paths of the recognizer. -/
def definedPaths : List (List (Nat × Int)) := [primaryFull, debugPathPwr, debugPathVol]

/-- An event sequence refuting C3's sequence-level conclusion: power-down
then volup-down. It equals no defined path and is a prefix of none of them,
yet the run from the initial state ends in `STEP1`, not `NONE`: the mismatched
first event resets to `NONE`, from where the second event restarts a path. -/
def mismatchSeq : List (Nat × Int) := [(KEY_POWER, 1), (KEY_VOLUMEUP, 1)]

/-- C3 counterexample: `mismatchSeq` matches no defined path (it is neither
equal to nor a prefix of any of them), produces no side effect, and yet the
recognizer ends in `STEP1`, not in `NONE` (IDLE), refuting the claim that
every non-matching sequence from IDLE ends in IDLE. -/
theorem mismatch_sequence_counterexample :
    (definedPaths.all fun p => !(mismatchSeq == p) && !(List.isPrefixOf mismatchSeq p)) = true ∧
    (runCombo false initOem mismatchSeq).2 = [none, none] ∧
    (runCombo true initOem mismatchSeq).2 = [none, none] ∧
    (runCombo false initOem mismatchSeq).1.combo = ComboState.STEP1 ∧
    (runCombo true initOem mismatchSeq).1.combo = ComboState.STEP1 ∧
    ComboState.STEP1 ≠ ComboState.NONE := by
  decide

/-- C3 amended: (1) from every state, an event that is not the expected next
step of a defined path resets the recognizer to `NONE` (IDLE) with no side
effect and no change to the other globals; (2) consequently every event
sequence from the initial state whose final event is not the expected next
step at the state then reached ends in `NONE`, with no side effect at that
final event. (A non-matching sequence may still end elsewhere when its tail
restarts a prefix of a defined path, as the counterexample shows.) -/
theorem combo_reset_on_mismatch :
    (∀ (download : Bool) (sel ms : Int) (cs : ComboState) (code : Nat) (value : Int),
      specExpectedNext cs code value = false →
        oem_check_force_dump_key download ⟨cs, sel, ms⟩ code value
          = ⟨⟨ComboState.NONE, sel, ms⟩, none⟩) ∧
    (∀ (download : Bool) (events : List (Nat × Int)) (code : Nat) (value : Int),
      specExpectedNext (runCombo download initOem events).1.combo code value = false →
        (runCombo download initOem (events ++ [(code, value)])).1.combo = ComboState.NONE ∧
        (runCombo download initOem (events ++ [(code, value)])).2
          = (runCombo download initOem events).2 ++ [none]) := by
  constructor
  · intro download sel ms cs code value h
    exact step_mismatch_resets download sel ms cs code value h
  · intro download events code value h
    have hstep := step_mismatch_resets download
      (runCombo download initOem events).1.selinux_switch
      (runCombo download initOem events).1.message_state
      (runCombo download initOem events).1.combo code value h
    rw [runCombo_append]
    simp [runCombo, hstep]

/-- Witness for the amended C3: at `STEP5` the expected event is power-down;
volup-down mismatches and resets to `NONE` with no side effect. -/
theorem combo_reset_on_mismatch_witness :
    oem_check_force_dump_key false ⟨ComboState.STEP5, 0, -1⟩ KEY_VOLUMEUP 1
      = ⟨⟨ComboState.NONE, 0, -1⟩, none⟩ :=
  combo_reset_on_mismatch.1 false 0 (-1) ComboState.STEP5 KEY_VOLUMEUP 1 (by decide)

/-- Result of one run of `send_msg_worker`: the outbound messages it sends,
whether it called `msm_serial_oem_init()` (the serial-enable side effect),
and the `message_state` value it leaves behind. -/
structure WorkerOut where
  sent : List String
  serial_enabled : Bool
  message_state : Int
deriving DecidableEq, Repr

/-- Translation of `send_msg_worker`: on `message_state == 1` it sends
"Enable DEBUG!"; on `message_state == 2` it calls `msm_serial_oem_init()` and
sends "ENABLE_OEM_FORCE_SERIAL"; in all cases it then sets `message_state = 0`. -/
def send_msg_worker (ms : Int) : WorkerOut :=
  if ms == 1 then ⟨["Enable DEBUG!"], false, 0⟩
  else if ms == 2 then ⟨["ENABLE_OEM_FORCE_SERIAL"], true, 0⟩
  else ⟨[], false, 0⟩

/-- C4: from `STEP10`, voldown-down enters `STEP_DEBUG1` with no side effect;
from `STEP_DEBUG1`, power-down sets `selinux_switch` to 1, writes mailbox
value 1 and queues the worker (which on draining 1 sends "Enable DEBUG!"),
while voldown-up writes mailbox value 2 and queues the worker (which on
draining 2 performs the serial-enable side effect and sends
"ENABLE_OEM_FORCE_SERIAL"); in all three steps the recognizer state returns
to (or moves to) the stated successor, ending in `NONE` for both terminals. -/
theorem debug_subpath_actions (download : Bool) (sel ms v : Int)
    (hv : (v != 0) = true) :
    oem_check_force_dump_key download ⟨ComboState.STEP10, sel, ms⟩ KEY_VOLUMEDOWN v
      = ⟨⟨ComboState.STEP_DEBUG1, sel, ms⟩, none⟩ ∧
    oem_check_force_dump_key download ⟨ComboState.STEP_DEBUG1, sel, ms⟩ KEY_POWER v
      = ⟨⟨ComboState.NONE, 1, 1⟩, some OemAction.Queued⟩ ∧
    send_msg_worker 1 = ⟨["Enable DEBUG!"], false, 0⟩ ∧
    oem_check_force_dump_key download ⟨ComboState.STEP_DEBUG1, sel, ms⟩ KEY_VOLUMEDOWN 0
      = ⟨⟨ComboState.NONE, sel, 2⟩, some OemAction.Queued⟩ ∧
    send_msg_worker 2 = ⟨["ENABLE_OEM_FORCE_SERIAL"], true, 0⟩ := by
  simp_all [oem_check_force_dump_key, send_msg_worker, KEY_POWER, KEY_VOLUMEUP, KEY_VOLUMEDOWN]

/-- Witness for C4 at a concrete pressed value. -/
theorem debug_subpath_actions_witness :
    oem_check_force_dump_key false ⟨ComboState.STEP10, 0, -1⟩ KEY_VOLUMEDOWN 1
      = ⟨⟨ComboState.STEP_DEBUG1, 0, -1⟩, none⟩ :=
  (debug_subpath_actions false 0 (-1) 1 (by decide)).1

/-- C6: walking the debug path to its power-down terminal (mailbox := 1) and
then, before the worker drains, walking it again to its voldown-up terminal
(mailbox := 2) leaves only the last value in the single-slot mailbox; the
worker then observes 2 only, sends exactly one message
("ENABLE_OEM_FORCE_SERIAL") and resets the mailbox to 0. -/
theorem mailbox_last_writer_wins :
    (runCombo false initOem (debugPathPwr ++ debugPathVol)).1.message_state = 2 ∧
    send_msg_worker (runCombo false initOem (debugPathPwr ++ debugPathVol)).1.message_state
      = ⟨["ENABLE_OEM_FORCE_SERIAL"], true, 0⟩ ∧
    (send_msg_worker (runCombo false initOem (debugPathPwr ++ debugPathVol)).1.message_state).sent.length
      = 1 := by
  decide

/-- Size of the `comm` field of a task (`TASK_COMM_LEN`). -/
def TASK_COMM_LEN : Nat := 16

/-- Result of `strncmp(a, b, n) == 0` on NUL-free C strings: the first `n`
characters (or all of them when shorter) coincide. -/
def strncmpEq (a b : String) (n : Nat) : Bool :=
  a.toList.take n == b.toList.take n

/-- The fields of `struct task_struct` that `find_task_by_name`,
`send_sig_to_get_trace` and `send_sig_to_get_tombstone` read: the command
name, pid, thread-group-leader pid, owning uid and (optionally) the parent's
command name (`none` models a NULL `parent` pointer). -/
structure TaskStruct where
  comm : String
  pid : Int
  group_leader_pid : Int
  uid : Int
  parent_comm : Option String
deriving DecidableEq, Repr

/-- Translation of `find_task_by_name(t, name)`: exact comparison of the
first `TASK_COMM_LEN` bytes of `comm` against `name`, or the Binder
heuristic: `comm` starts with "Binder:", the task is its own thread-group
leader, its uid is 1000, and it has a parent whose `comm` is exactly "main". -/
def find_task_by_name (t : TaskStruct) (name : String) : Bool :=
  strncmpEq t.comm name TASK_COMM_LEN ||
    (strncmpEq t.comm "Binder:" 7 && t.group_leader_pid == t.pid && t.uid == 1000 &&
      (match t.parent_comm with
       | some p => p == "main"
       | none => false))

/-- Translation of the scan in `send_sig_to_get_trace`: walk all threads of
all processes in table order and return the first task satisfying
`find_task_by_name` (the one that receives `SIGQUIT`), or `none`. -/
def send_sig_to_get_trace (threads : List TaskStruct) (name : String) : Option TaskStruct :=
  threads.find? fun t => find_task_by_name t name

/-- The process list underlying `for_each_process`: only the thread-group
leaders of the thread table, in table order. -/
def processesOf (threads : List TaskStruct) : List TaskStruct :=
  threads.filter fun t => t.group_leader_pid == t.pid

/-- Translation of the scan in `send_sig_to_get_tombstone`: walk the
processes (thread-group leaders) in table order and return the first whose
`comm` equals `name` on the first `TASK_COMM_LEN` bytes (the one that
receives `SIGRTMIN+3`), or `none`. No Binder heuristic is applied. -/
def send_sig_to_get_tombstone (threads : List TaskStruct) (name : String) : Option TaskStruct :=
  (processesOf threads).find? fun p => strncmpEq p.comm name TASK_COMM_LEN

/-- Spec-side match predicate, written from the spec's words for comparison
with `find_task_by_name`: exact equality of the truncated (at most 16-byte)
command name, or: the name begins with the IPC-thread prefix "Binder:", the
candidate is its own thread-group leader, its owning uid is the privileged
system uid 1000, and its parent's name is the init-process name "main". -/
def specMatchPredicate (t : TaskStruct) (name : String) : Prop :=
  t.comm.toList.take 16 = name.toList.take 16 ∨
    ("Binder:".toList <+: t.comm.toList ∧ t.group_leader_pid = t.pid ∧ t.uid = 1000 ∧
      t.parent_comm = some "main")

/-- The code's match predicate coincides with the spec's. -/
theorem find_task_by_name_iff (t : TaskStruct) (name : String) :
    find_task_by_name t name = true ↔ specMatchPredicate t name := by
  have hpre : ∀ l : List Char, ("Binder:".toList <+: l) ↔ List.take 7 l = "Binder:".toList := by
    intro l
    have h7 : ("Binder:".toList).length = 7 := by decide
    rw [List.prefix_iff_eq_take, h7, eq_comm]
  unfold find_task_by_name specMatchPredicate strncmpEq TASK_COMM_LEN
  rw [hpre]
  cases hp : t.parent_comm with
  | none => simp [hp, and_assoc]
  | some p => simp [hp, and_assoc]

/-- The trace scan returns the first matching task in table order. -/
theorem trace_scan_first_match (name : String) :
    ∀ (pre : List TaskStruct) (t : TaskStruct) (post : List TaskStruct),
      (∀ u ∈ pre, find_task_by_name u name = false) → find_task_by_name t name = true →
        send_sig_to_get_trace (pre ++ t :: post) name = some t := by
  intro pre
  induction pre with
  | nil =>
      intro t post _ ht
      simp [send_sig_to_get_trace, List.find?_cons_of_pos, ht]
  | cons a rest ih =>
      intro t post hpre ht
      have ha : find_task_by_name a name = false := hpre a (List.mem_cons_self a rest)
      have hrest : ∀ u ∈ rest, find_task_by_name u name = false := by
        intro u hu
        exact hpre u (List.mem_cons_of_mem a hu)
      have := ih t post hrest ht
      simpa [send_sig_to_get_trace, List.find?_cons, ha] using this

/-- C5 amended: the code's match predicate is exactly the spec's predicate
(exact truncated-name equality or the Binder heuristic), and the scan
returns the FIRST matching task in table order — not the exact match by
priority: it returns `none` when no task matches, and returns a matching
task exactly when it is the earliest match (so the exact match is returned
when only it matches or when it precedes the heuristic match, and the
heuristic match is returned when only it matches or when it comes first). -/
theorem find_by_name_characterization :
    (∀ (t : TaskStruct) (name : String),
        find_task_by_name t name = true ↔ specMatchPredicate t name) ∧
    (∀ (threads : List TaskStruct) (name : String),
        (∀ u ∈ threads, find_task_by_name u name = false) →
          send_sig_to_get_trace threads name = none) ∧
    (∀ (pre : List TaskStruct) (t : TaskStruct) (post : List TaskStruct) (name : String),
        (∀ u ∈ pre, find_task_by_name u name = false) → find_task_by_name t name = true →
          send_sig_to_get_trace (pre ++ t :: post) name = some t) := by
  refine ⟨find_task_by_name_iff, ?_, ?_⟩
  · intro threads name h
    apply List.find?_eq_none.mpr
    intro u hu
    simp [h u hu]
  · intro pre t post name hpre ht
    exact trace_scan_first_match name pre t post hpre ht

/-- A process whose `comm` is exactly the searched name "target". -/
def exactTask : TaskStruct := ⟨"target", 7, 7, 0, some "init"⟩

/-- A heuristic-only match: a thread-group leader named "Binder:123" with
uid 1000 and parent "main"; its `comm` does not equal "target". -/
def binderTask : TaskStruct := ⟨"Binder:123", 5, 5, 1000, some "main"⟩

/-- A task matching nothing for the name "target". -/
def otherTask : TaskStruct := ⟨"systemd", 2, 2, 0, some "init"⟩

/-- Witness for the amended C5: in the table `[otherTask, exactTask]` the
non-matching head is skipped and the exact match is returned. -/
theorem find_by_name_characterization_witness :
    send_sig_to_get_trace [otherTask, exactTask] "target" = some exactTask :=
  find_by_name_characterization.2.2 [otherTask] exactTask [] "target"
    (by decide) (by decide)

/-- C5 counterexample: in a table holding one exact match and one
heuristic-only match with the heuristic one first, the scan returns the
heuristic match, not the exact one: the C loop takes the first match in
table order and has no priority for exact matches. -/
theorem find_by_name_order_counterexample :
    strncmpEq exactTask.comm "target" TASK_COMM_LEN = true ∧
    find_task_by_name binderTask "target" = true ∧
    strncmpEq binderTask.comm "target" TASK_COMM_LEN = false ∧
    send_sig_to_get_trace [binderTask, exactTask] "target" = some binderTask ∧
    binderTask ≠ exactTask := by
  decide

/-- C10 amended: the tombstone path only ever delivers to a task whose
truncated command name exactly equals the searched name and which is its own
thread-group leader (it scans processes only and never applies the Binder
heuristic) — so a heuristic-only task is never delivered the tombstone
signal; the trace path delivers the trace signal to a heuristic-only task
whenever it is the unique (hence first) matching thread in the table, not
unconditionally. -/
theorem tombstone_exact_name_only :
    ∀ (threads : List TaskStruct) (name : String) (t : TaskStruct),
      (send_sig_to_get_tombstone threads name = some t →
        strncmpEq t.comm name TASK_COMM_LEN = true ∧
        (t.group_leader_pid == t.pid) = true) ∧
      (t ∈ threads → find_task_by_name t name = true →
        (∀ u ∈ threads, find_task_by_name u name = true → u = t) →
          send_sig_to_get_trace threads name = some t) := by
  intro threads name t
  constructor
  · intro h
    have hp := List.find?_some h
    have hm := List.mem_of_find?_eq_some h
    have hl := (List.mem_filter.mp hm).2
    exact ⟨hp, hl⟩
  · intro ht hp huniq
    have hs : (threads.find? fun u => find_task_by_name u name).isSome :=
      List.find?_isSome.mpr ⟨t, ht, hp⟩
    obtain ⟨u, hu⟩ := Option.isSome_iff_exists.mp hs
    have hup := List.find?_some hu
    have hum := List.mem_of_find?_eq_some hu
    have : u = t := huniq u hum hup
    rw [send_sig_to_get_trace, hu, this]

/-- Witness for the amended C10: the tombstone target in `[exactTask]` is the
exact match (with both conclusions), and in the table `[binderTask]` the
heuristic-only task, being the unique match, receives the trace signal. -/
theorem tombstone_exact_name_only_witness :
    (strncmpEq exactTask.comm "target" TASK_COMM_LEN = true ∧
      (exactTask.group_leader_pid == exactTask.pid) = true) ∧
    send_sig_to_get_trace [binderTask] "target" = some binderTask :=
  ⟨(tombstone_exact_name_only [exactTask] "target" exactTask).1 (by decide),
   (tombstone_exact_name_only [binderTask] "target" binderTask).2
     (by decide) (by decide) (by decide)⟩

/-- C10 counterexample: in the table `[exactTask, binderTask]` the task
`binderTask` is findable only via the heuristic, yet the trace path delivers
the trace signal to `exactTask`, not to it (and the tombstone path also
targets `exactTask`): a heuristic-only task is not delivered the trace
signal in every table, only when it is the first match. -/
theorem tombstone_trace_asymmetry_counterexample :
    find_task_by_name binderTask "target" = true ∧
    strncmpEq binderTask.comm "target" TASK_COMM_LEN = false ∧
    send_sig_to_get_trace [exactTask, binderTask] "target" = some exactTask ∧
    send_sig_to_get_tombstone [exactTask, binderTask] "target" = some exactTask ∧
    exactTask ≠ binderTask := by
  decide

/-- The netlink channel state: the cached peer address `fd`
(`static int fd = -1;` in the source). -/
structure NlChannel where
  fd : Int
deriving DecidableEq, Repr

/-- The channel before any inbound message: `fd = -1`. -/
def initChannel : NlChannel := ⟨-1⟩

/-- The parts of an inbound datagram that `recv_nlmsg` reads: the claimed
message length `nlmsg_len` and sender id `nlmsg_pid` from the netlink
header, and the actual buffer length `skb->len`. -/
structure NlMsg where
  nlmsg_len : Nat
  nlmsg_pid : Int
  skb_len : Nat
deriving DecidableEq, Repr

/-- Size of the fixed netlink header (`NLMSG_HDRLEN`, 16 bytes). -/
def NLMSG_HDRLEN : Nat := 16

/-- Translation of `recv_nlmsg`: a message whose claimed length is below the
header size or exceeds the buffer length is dropped with no state change;
otherwise `fd` is overwritten with the sender's `nlmsg_pid`. -/
def recv_nlmsg (ch : NlChannel) (m : NlMsg) : NlChannel :=
  if m.nlmsg_len < NLMSG_HDRLEN ∨ m.skb_len < m.nlmsg_len then ch
  else ⟨m.nlmsg_pid⟩

/-- Translation of `send_msg`: the call always returns (no error path is
reported to the caller); the datagram is handed to `netlink_unicast` directed
at the cached `fd`, and the channel state is unchanged. The returned pair is
(target address, channel state after the call). -/
def send_msg (ch : NlChannel) (message : String) : Int × NlChannel :=
  (ch.fd, ch)

/-- C7 counterexample: before any inbound message the cached peer address is
-1 (the initialiser of `static int fd`), not 0, and a send in that state is
directed at -1. -/
theorem channel_initial_fd_counterexample :
    initChannel.fd = -1 ∧ initChannel.fd ≠ 0 ∧
    (send_msg initChannel "FORCE_MDM_DUMP_SYNC").1 = -1 := by
  decide

/-- C7 amended: in the channel state in which no inbound message has ever
been received the cached peer address equals -1 (the initial sentinel, not
0); a send in that state is accepted by the API (it is a total function: no
crash, no error returned), is directed at that sentinel address — which
matches no real peer, so the transport drops it — and leaves the channel
state unchanged. -/
theorem channel_send_before_receive :
    ∀ (message : String),
      send_msg initChannel message = (-1, initChannel) ∧ initChannel.fd ≠ 0 := by
  intro message
  exact ⟨rfl, by decide⟩

/-- C8: receiving a well-formed inbound message (claimed length at least the
header size and no larger than the buffer) overwrites the cached peer address
with the sender's id, whatever it was before, so the next send targets
exactly that sender; a malformed or too-short message leaves the channel
state (and hence the next send's target) unchanged. -/
theorem recv_updates_peer_address :
    ∀ (ch : NlChannel) (m : NlMsg) (message : String),
      (NLMSG_HDRLEN ≤ m.nlmsg_len → m.nlmsg_len ≤ m.skb_len →
        recv_nlmsg ch m = ⟨m.nlmsg_pid⟩ ∧
        (send_msg (recv_nlmsg ch m) message).1 = m.nlmsg_pid) ∧
      (m.nlmsg_len < NLMSG_HDRLEN ∨ m.skb_len < m.nlmsg_len →
        recv_nlmsg ch m = ch) := by
  intro ch m message
  constructor
  · intro h1 h2
    have hcond : ¬(m.nlmsg_len < NLMSG_HDRLEN ∨ m.skb_len < m.nlmsg_len) := by
      push_neg
      exact ⟨h1, h2⟩
    rw [recv_nlmsg, if_neg hcond]
    exact ⟨rfl, rfl⟩
  · intro h
    rw [recv_nlmsg, if_pos h]

/-- Witness for C8: a well-formed message from sender 42 retargets the send
at 42 whatever the previous address was, and a short message is dropped. -/
theorem recv_updates_peer_address_witness :
    (recv_nlmsg ⟨7⟩ ⟨16, 42, 20⟩ = ⟨42⟩ ∧
      (send_msg (recv_nlmsg ⟨7⟩ ⟨16, 42, 20⟩) "Enable DEBUG!").1 = 42) ∧
    recv_nlmsg ⟨7⟩ ⟨3, 42, 20⟩ = ⟨7⟩ :=
  ⟨(recv_updates_peer_address ⟨7⟩ ⟨16, 42, 20⟩ "Enable DEBUG!").1
      (by decide) (by decide),
   (recv_updates_peer_address ⟨7⟩ ⟨3, 42, 20⟩ "Enable DEBUG!").2 (by decide)⟩

/-- The retry loop of `vbswap_helper`, written with the remaining retry
budget as the recursion argument: the C code runs
`do { ret = linux_sh(printf-disksize); if (ret) msleep(DELAY); }
while (ret && (retries++ < 25));`, so with `remaining = 25 - retries` an
attempt is followed by another one exactly when it failed (`ret != 0`) and
budget remains. `ret k` is the exit status of the k-th attempt (0-based) of
the retried privileged command; the result is the number of attempts made. -/
def vbswapGo (ret : Nat → Int) : Nat → Nat → Nat
  | attempt, 0 => attempt + 1
  | attempt, remaining + 1 =>
      if ret attempt != 0 then vbswapGo ret (attempt + 1) remaining
      else attempt + 1

/-- Translation of `vbswap_helper`: run the retried disksize command
(at most 1 + 25 attempts), then unconditionally run `mkswap` and `swapon`.
Returns the number of attempts of the first command and the list of commands
executed after the loop. -/
def vbswap_helper (ret : Nat → Int) : Nat × List String :=
  (vbswapGo ret 0 25,
   ["/system/bin/mkswap /dev/block/vbswap0", "/system/bin/swapon /dev/block/vbswap0"])

/-- The retry loop makes at most `remaining + 1` further attempts. -/
theorem vbswapGo_le (ret : Nat → Int) :
    ∀ (remaining attempt : Nat), vbswapGo ret attempt remaining ≤ attempt + remaining + 1 := by
  intro remaining
  induction remaining with
  | zero => intro attempt; simp [vbswapGo]
  | succ n ih =>
      intro attempt
      rw [vbswapGo]
      split
      · have := ih (attempt + 1)
        omega
      · omega

/-- C9: for every outcome sequence of the retried command, the helper's
first command is attempted at most 26 times (one initial attempt plus at
most 25 retries), so the loop terminates; a success on the first attempt
stops the loop at once; when every attempt fails the full budget of 25
retries is used; and in every case the helper then proceeds to `mkswap`
and `swapon` regardless of whether the retried command ever succeeded. -/
theorem vbswap_retry_bounded :
    ∀ (ret : Nat → Int),
      (vbswap_helper ret).1 ≤ 26 ∧
      (ret 0 = 0 → (vbswap_helper ret).1 = 1) ∧
      (vbswap_helper fun _ => 1).1 = 26 ∧
      (vbswap_helper ret).2
        = ["/system/bin/mkswap /dev/block/vbswap0",
           "/system/bin/swapon /dev/block/vbswap0"] := by
  intro ret
  refine ⟨?_, ?_, by decide, rfl⟩
  · have := vbswapGo_le ret 25 0
    simpa [vbswap_helper] using this
  · intro h0
    simp [vbswap_helper, vbswapGo, h0]

/-- Witness for C9: with a command that succeeds immediately the loop stops
after the single initial attempt, within the bound of 26 attempts. -/
theorem vbswap_retry_bounded_witness :
    (vbswap_helper fun _ => 0).1 = 1 ∧ (vbswap_helper fun _ => 0).1 ≤ 26 :=
  ⟨(vbswap_retry_bounded fun _ => 0).2.1 rfl, (vbswap_retry_bounded fun _ => 0).1⟩
